import Mathlib

/-!
Shallow embedding of `src/app.py` (a small tool that normalizes Naver search
API JSON exports and persists them through two external collaborators).
JSON values are modelled by the inductive `Json` below; numbers are modelled
as integers (no claim touches non-integer numbers).
-/

inductive Json where
  | null : Json
  | bool (b : Bool) : Json
  | num (n : Int) : Json
  | str (s : String) : Json
  | arr (xs : List Json) : Json
  | obj (kvs : List (String × Json)) : Json

/-- First-match association lookup; objects produced by `json.load` have
unique keys, so first-match agrees with Python dict lookup. -/
def alookup : List (String × Json) → String → Option Json
  | [], _ => none
  | (k, v) :: rest, key => if k = key then some v else alookup rest key

/-- Python truthiness of a JSON-shaped value (`if not x`). -/
def pyTruthy : Json → Bool
  | .null => false
  | .bool b => b
  | .num n => if n = 0 then false else true
  | .str s => if s = "" then false else true
  | .arr [] => false
  | .arr (_ :: _) => true
  | .obj [] => false
  | .obj (_ :: _) => true

/-- Does `pat` occur at the start of `l`? -/
def charsStartWith : List Char → List Char → Bool
  | [], _ => true
  | _ :: _, [] => false
  | a :: as, b :: bs => if a = b then charsStartWith as bs else false

/-- Does `pat` occur somewhere inside `l`? (Python substring containment.) -/
def charsContain (pat : List Char) : List Char → Bool
  | [] => charsStartWith pat []
  | b :: bs => if charsStartWith pat (b :: bs) then true else charsContain pat bs

/-- Is the value a JSON mapping (`isinstance(data, dict)`)? -/
def Json.isObj : Json → Bool
  | .obj _ => true
  | _ => false

/-- Key presence in a mapping (`'k' in item` on a dict). -/
def hasKey (fields : List (String × Json)) (k : String) : Bool :=
  (alookup fields k).isSome

/-- Python `x[0]` on a JSON-shaped value. -/
def pyIndex0 : Json → Except String Json
  | .arr (x :: _) => .ok x
  | .arr [] => .error "IndexError"
  | .str s =>
    match s.data with
    | c :: _ => .ok (.str (String.mk [c]))
    | [] => .error "IndexError"
  | .obj _ => .error "KeyError"
  | _ => .error "TypeError"

/-- Python `key in x`: dict key membership, list membership (the needle is
always a string here, and a JSON value equals a Python string only when it
is that string), substring test on strings, `TypeError` otherwise. -/
def pyIn (key : String) : Json → Except String Bool
  | .obj kvs => .ok (alookup kvs key).isSome
  | .arr xs => .ok (xs.any fun v => match v with | .str t => t = key | _ => false)
  | .str s => .ok (charsContain key.data s.data)
  | _ => .error "TypeError"

/-- Python `item.get(k, dflt)`; non-dicts raise `AttributeError`. -/
def pyGetD (item : Json) (k : String) (dflt : Json) : Except String Json :=
  match item with
  | .obj kvs => .ok ((alookup kvs k).getD dflt)
  | _ => .error "AttributeError"

/-- Python `item[k]` with a string key. -/
def pyIndexStr (item : Json) (k : String) : Except String Json :=
  match item with
  | .obj kvs =>
    match alookup kvs k with
    | some v => .ok v
    | none => .error "KeyError"
  | _ => .error "TypeError"

/-- Python iteration (`for item in items`): lists yield elements, strings
yield one-character strings, dicts yield their keys. -/
def pyIter : Json → Except String (List Json)
  | .arr xs => .ok xs
  | .str s => .ok (s.data.map fun c => .str (String.mk [c]))
  | .obj kvs => .ok (kvs.map fun p => .str p.1)
  | _ => .error "TypeError"

/-- Falsiness of an optional string argument (`if not source_type`). -/
def pyFalsy : Option String → Bool
  | none => true
  | some s => if s = "" then true else false

/-- Python `f"{x}"` on an optional string: `None` prints as `"None"`. -/
def pyStr : Option String → String
  | none => "None"
  | some s => s

/-- Whitespace accepted by Python `int()` around the digits. -/
def isWsChar (c : Char) : Bool :=
  if c = ' ' then true else if c = '\t' then true else if c = '\n' then true
  else if c = '\r' then true else if c.toNat = 11 then true
  else if c.toNat = 12 then true else false

def isDigitChar (c : Char) : Bool :=
  if '0' ≤ c then decide (c ≤ '9') else false

def trimWs (l : List Char) : List Char :=
  ((l.dropWhile isWsChar).reverse.dropWhile isWsChar).reverse

/-- Digit run of Python `int()`: underscores allowed between digits only. -/
def parseDigits : List Char → Nat → Option Nat
  | [], acc => some acc
  | c :: rest, acc =>
    if isDigitChar c then parseDigits rest (acc * 10 + (c.toNat - 48))
    else if c = '_' then
      match rest with
      | d :: _ => if isDigitChar d then parseDigits rest acc else none
      | [] => none
    else none

def natPart : List Char → Option Nat
  | [] => none
  | c :: rest => if isDigitChar c then parseDigits (c :: rest) 0 else none

/-- Model of Python `int(s)` on a string (success or `ValueError`). -/
def pyStrToInt (s : String) : Option Int :=
  match trimWs s.data with
  | '+' :: rest => (natPart rest).map fun n => (n : Int)
  | '-' :: rest => (natPart rest).map fun n => -(n : Int)
  | rest => (natPart rest).map fun n => (n : Int)

/-- Model of Python `int(x)` on a JSON-shaped value: numbers and booleans
convert, strings are parsed, everything else raises `TypeError`; `none` is
the caught `(ValueError, TypeError)` case of `app.py` lines 110-113. -/
def pyToInt : Json → Option Int
  | .num n => some n
  | .bool b => some (if b then 1 else 0)
  | .str s => pyStrToInt s
  | _ => none

/-- The price stored in metadata: an integer or Python `None`. -/
def priceJson : Option Int → Json
  | some n => .num n
  | none => .null

/-- Scan for the first `>` reachable without crossing a newline (the regex
`<.*?>` of `clean_html_tags` uses `.`, which does not match `\n`); returns
the characters after that `>`. -/
def findTagEnd : List Char → Option (List Char)
  | [] => none
  | c :: cs => if c = '>' then some cs else if c = '\n' then none else findTagEnd cs

/-- One full left-to-right pass of `re.sub(r'<.*?>', '', text)`, with fuel;
fuel `l.length` always suffices because every step consumes at least one
character. -/
def stripGo : Nat → List Char → List Char
  | _, [] => []
  | 0, l => l
  | fuel + 1, c :: cs =>
    if c = '<' then
      match findTagEnd cs with
      | some rest => stripGo fuel rest
      | none => c :: stripGo fuel cs
    else c :: stripGo fuel cs

def stripHtmlCore (l : List Char) : List Char := stripGo l.length l

/-- Does the regex `<.*?>` match anywhere in `l`? -/
def hasTag : List Char → Bool
  | [] => false
  | c :: cs => if c = '<' then ((findTagEnd cs).isSome || hasTag cs) else hasTag cs

/-- `re.sub(r'<.*?>', '', s)` on a string. -/
def stripHtml (s : String) : String := String.mk (stripHtmlCore s.data)

/-- `clean_html_tags` (app.py lines 31-35): falsy input yields `""`,
truthy strings are stripped, truthy non-strings raise inside `re.sub`. -/
def clean_html_tags (text : Json) : Except String String :=
  if pyTruthy text then
    match text with
    | .str s => .ok (stripHtml s)
    | _ => .error "TypeError"
  else .ok ""

/-- `detect_naver_api_type` (app.py lines 37-56). -/
def detect_naver_api_type (data : Json) : Except String String :=
  match data with
  | .obj kvs =>
    match alookup kvs "items" with
    | none => .ok "unknown"
    | some itemsVal =>
      if pyTruthy itemsVal then do
        let sample ← pyIndex0 itemsVal
        if (← pyIn "bloggername" sample) then pure "블로그"
        else if (← pyIn "productType" sample) then pure "쇼핑"
        else if (← pyIn "maker" sample) then pure "쇼핑"
        else if (← pyIn "mallName" sample) then pure "쇼핑"
        else if (← pyIn "pubDate" sample) then
          if (← pyIn "articleId" sample) then pure "뉴스"
          else if (← pyIn "originallink" sample) then pure "뉴스"
          else pure "unknown"
        else pure "unknown"
      else .ok "unknown"
  | _ => .ok "unknown"

/-- The `st.info` message printed after auto-detection (app.py line 72). -/
def infoMsg (st : String) : String :=
  "데이터 형식이 '" ++ st ++ "'으로 감지되었습니다."

/-- The metadata `collection` value each branch of the loop body stores:
the source type itself in the three typed branches, and
`source_type if source_type else "general"` in the default branch. -/
def collLabel : Option String → String
  | some s => if s = "" then "general" else s
  | none => "general"

/-- The per-item body of the loop of `process_json_file` (app.py lines
86-156) up to but not including the two collaborator calls: produces
`(full_content, metadata)` or the exception the body raises.  The wall
clock (`datetime.now().isoformat()`) is passed in as `nowIso`. -/
def normalizeItem (source_type : Option String) (nowIso : String) (item : Json) :
    Except String (String × List (String × Json)) :=
  if source_type = some "블로그" then do
    let title ← clean_html_tags (← pyGetD item "title" (.str ""))
    let content ← clean_html_tags (← pyGetD item "description" (.str ""))
    let full := title ++ " " ++ content
    pure (full,
      [("title", .str title), ("collection", .str "블로그"),
       ("collected_at", .str nowIso), ("url", ← pyGetD item "link" (.str "")),
       ("date", ← pyGetD item "postdate" (.str "")),
       ("bloggername", ← pyGetD item "bloggername" (.str "")),
       ("bloggerlink", ← pyGetD item "bloggerlink" (.str ""))])
  else if source_type = some "쇼핑" then do
    let title ← clean_html_tags (← pyGetD item "title" (.str ""))
    let altBody ← pyGetD item "category3" (.str "")
    let content ← clean_html_tags (← pyGetD item "description" altBody)
    let full := title ++ " " ++ content
    let priceRaw ← pyGetD item "lprice" (.str "")
    let price := pyToInt priceRaw
    pure (full,
      [("title", .str title), ("collection", .str "쇼핑"),
       ("collected_at", .str nowIso), ("url", ← pyGetD item "link" (.str "")),
       ("price", priceJson price), ("maker", ← pyGetD item "maker" (.str "")),
       ("brand", ← pyGetD item "brand" (.str "")),
       ("mallName", ← pyGetD item "mallName" (.str "")),
       ("productId", ← pyGetD item "productId" (.str "")),
       ("productType", ← pyGetD item "productType" (.str ""))])
  else if source_type = some "뉴스" then do
    let title ← clean_html_tags (← pyGetD item "title" (.str ""))
    let content ← clean_html_tags (← pyGetD item "description" (.str ""))
    let full := title ++ " " ++ content
    let altUrl ← pyGetD item "originallink" (.str "")
    pure (full,
      [("title", .str title), ("collection", .str "뉴스"),
       ("collected_at", .str nowIso), ("url", ← pyGetD item "link" altUrl),
       ("date", ← pyGetD item "pubDate" (.str "")),
       ("publisher", ← pyGetD item "publisher" (.str ""))])
  else do
    let title ← clean_html_tags (← pyGetD item "title" (.str ""))
    let altBody ← pyGetD item "content" (.str "")
    let content ← clean_html_tags (← pyGetD item "description" altBody)
    let full := title ++ " " ++ content
    let base := [("title", Json.str title),
      ("collection", Json.str (collLabel source_type)),
      ("collected_at", Json.str nowIso)]
    if (← pyIn "link" item) then do
      let lv ← pyIndexStr item "link"
      pure (full, base ++ [("url", lv)])
    else pure (full, base)

/-- The record inserted into the `documents` table (app.py lines 162-168). -/
structure StoredRecord where
  content : String
  embedding : List Int
  metadata : List (String × Json)

/-- The item loop of `process_json_file`: per item, normalize, embed,
insert, count.  Returns the records the external store accepted (they stay
persisted even when a later item fails), `doc_count` at the moment the loop
stops, and the exception that aborted it, if any. -/
def runLoop (items : List Json) (st : Option String)
    (embed : String → Except String (List Int))
    (insert : StoredRecord → Except String Unit) (nowIso : String) :
    List StoredRecord × Nat × Option String :=
  match items with
  | [] => ([], 0, none)
  | item :: rest =>
    match normalizeItem st nowIso item with
    | .error e => ([], 0, some e)
    | .ok (full, md) =>
      match embed full with
      | .error e => ([], 0, some e)
      | .ok v =>
        let r : StoredRecord := ⟨full, v, md⟩
        match insert r with
        | .error e => ([], 0, some e)
        | .ok _ =>
          match runLoop rest st embed insert nowIso with
          | (rs, n, err) => (r :: rs, n + 1, err)

/-- Everything observable about one `process_json_file` call: the records
now in the external store, the `st.info` messages shown, and either the
returned `(collection_name, doc_count, source_type)` triple or the
exception that escaped. -/
structure ProcOut where
  store : List StoredRecord
  infos : List String
  result : Except String (String × Nat × Option String)

/-- Collection-name generation plus the item loop (app.py lines 77-171),
shared by every shape branch.  `ns` models
`datetime.now().strftime('%Y%m%d_%H%M%S')`. -/
def runBatch (itemsVal : Json) (st cn : Option String) (infos : List String)
    (embed : String → Except String (List Int))
    (insert : StoredRecord → Except String Unit) (ns ni : String) : ProcOut :=
  let collName :=
    match cn with
    | some c => if c = "" then pyStr st ++ "_" ++ ns else c
    | none => pyStr st ++ "_" ++ ns
  match pyIter itemsVal with
  | .error e => ⟨[], infos, .error e⟩
  | .ok items =>
    match runLoop items st embed insert ni with
    | (recs, _, some e) => ⟨recs, infos, .error e⟩
    | (recs, n, none) => ⟨recs, infos, .ok (collName, n, st)⟩

/-- `process_json_file` (app.py lines 58-171), with the parsed JSON as
input (file reading and `json.load` are external), the two collaborators
as parameters, and the wall clock as `ns`/`ni`. -/
def process_json_file (data : Json) (collection_name source_type : Option String)
    (embed : String → Except String (List Int))
    (insert : StoredRecord → Except String Unit) (ns ni : String) : ProcOut :=
  match data with
  | .obj kvs =>
    match alookup kvs "items" with
    | some itemsVal =>
      if pyFalsy source_type then
        match detect_naver_api_type data with
        | .error e => ⟨[], [], .error e⟩
        | .ok d => runBatch itemsVal (some d) collection_name [infoMsg d] embed insert ns ni
      else runBatch itemsVal source_type collection_name [] embed insert ns ni
    | none => runBatch data source_type collection_name [] embed insert ns ni
  | _ => runBatch data source_type collection_name [] embed insert ns ni

/-- The messages the user sees from the `st.button` handler (app.py lines
197-219): the in-process `st.info` lines, then either the three success
lines or the single `st.error` line.  The database-status block queries the
external store and is out of scope. -/
def run_button (data : Json) (collection_name source_type : Option String)
    (embed : String → Except String (List Int))
    (insert : StoredRecord → Except String Unit) (ns ni : String) : List String :=
  let out := process_json_file data collection_name source_type embed insert ns ni
  out.infos ++
    match out.result with
    | .ok (cn, dc, ty) =>
      ["성공적으로 " ++ toString dc ++ "개의 문서가 저장되었습니다!",
       "컬렉션 이름: " ++ cn, "데이터 타입: " ++ pyStr ty]
    | .error e => ["오류 발생: " ++ e]

/-- An embedding collaborator that always succeeds. -/
def embedOkC : String → Except String (List Int) := fun _ => .ok [0]

/-- A store collaborator that always succeeds. -/
def insertOkC : StoredRecord → Except String Unit := fun _ => .ok ()

/-- A store collaborator that rejects exactly the record of the second
fixture item below. -/
def insertFailC : StoredRecord → Except String Unit :=
  fun r => if r.content = "t2 d2" then .error "boom" else .ok ()

/-- Fixture: a three-item batch whose second item the store rejects. -/
def batch3 : Json :=
  .arr [.obj [("title", .str "t1"), ("description", .str "d1")],
        .obj [("title", .str "t2"), ("description", .str "d2")],
        .obj [("title", .str "t3"), ("description", .str "d3")]]

/-- Fixture: the example blog batch of the specification. -/
def blogBatch : Json :=
  .obj [("items", .arr [.obj [("title", .str "<b>A</b>"),
    ("description", .str "d1"), ("bloggername", .str "bn")]])]

theorem stripGo_zero (l : List Char) : stripGo 0 l = l := by
  cases l <;> rfl

theorem findTagEnd_length {cs rest : List Char} (h : findTagEnd cs = some rest) :
    rest.length < cs.length := by
  induction cs with
  | nil => simp [findTagEnd] at h
  | cons c cs ih =>
    rw [findTagEnd] at h
    by_cases hc : c = '>'
    · simp only [hc, if_pos rfl] at h
      cases h
      exact Nat.lt_succ_self _
    · by_cases hn : c = '\n'
      · simp [hc, hn] at h
      · simp only [hc, hn, if_neg, ite_false] at h
        exact Nat.lt_trans (ih h) (Nat.lt_succ_self _)

theorem stripGo_cons (n : Nat) (c : Char) (cs : List Char) :
    stripGo (n + 1) (c :: cs)
      = if c = '<' then
          (match findTagEnd cs with
           | some rest => stripGo n rest
           | none => c :: stripGo n cs)
        else c :: stripGo n cs := rfl

theorem findTagEnd_cons (c : Char) (cs : List Char) :
    findTagEnd (c :: cs)
      = if c = '>' then some cs else if c = '\n' then none else findTagEnd cs := rfl

theorem hasTag_cons (c : Char) (cs : List Char) :
    hasTag (c :: cs)
      = if c = '<' then ((findTagEnd cs).isSome || hasTag cs) else hasTag cs := rfl

theorem stripGo_of_hasTag_eq_false (n : Nat) :
    ∀ l : List Char, hasTag l = false → l.length ≤ n → stripGo n l = l := by
  induction n with
  | zero => intro l _ _; exact stripGo_zero l
  | succ n ih =>
    intro l h hl
    cases l with
    | nil => rfl
    | cons c cs =>
      rw [hasTag_cons] at h
      rw [stripGo_cons]
      by_cases hc : c = '<'
      · rw [if_pos hc] at h
        rw [if_pos hc]
        rcases Bool.or_eq_false_iff.mp h with ⟨h1, h2⟩
        cases hfe : findTagEnd cs with
        | some rest => rw [hfe] at h1; simp at h1
        | none =>
          show c :: stripGo n cs = c :: cs
          rw [ih cs h2 (Nat.le_of_succ_le_succ hl)]
      · rw [if_neg hc] at h
        rw [if_neg hc, ih cs h (Nat.le_of_succ_le_succ hl)]

theorem findTagEnd_stripGo (n : Nat) :
    ∀ cs : List Char, findTagEnd cs = none → findTagEnd (stripGo n cs) = none := by
  induction n with
  | zero => intro cs h; rw [stripGo_zero]; exact h
  | succ n ih =>
    intro cs h
    cases cs with
    | nil => exact h
    | cons c cs =>
      rw [findTagEnd_cons] at h
      by_cases hgt : c = '>'
      · rw [if_pos hgt] at h; exact absurd h (by simp)
      · rw [if_neg hgt] at h
        by_cases hnl : c = '\n'
        · rw [stripGo_cons, if_neg (by rw [hnl]; decide)]
          rw [findTagEnd_cons, if_neg hgt, if_pos hnl]
        · rw [if_neg hnl] at h
          rw [stripGo_cons]
          by_cases hlt : c = '<'
          · rw [if_pos hlt, h]
            show findTagEnd (c :: stripGo n cs) = none
            rw [findTagEnd_cons, if_neg hgt, if_neg hnl]
            exact ih cs h
          · rw [if_neg hlt]
            rw [findTagEnd_cons, if_neg hgt, if_neg hnl]
            exact ih cs h

theorem hasTag_stripGo (n : Nat) :
    ∀ l : List Char, l.length ≤ n → hasTag (stripGo n l) = false := by
  induction n with
  | zero =>
    intro l hl
    have : l = [] := List.length_eq_zero.mp (Nat.le_zero.mp hl)
    subst this
    rfl
  | succ n ih =>
    intro l hl
    cases l with
    | nil => rfl
    | cons c cs =>
      have hcs : cs.length ≤ n := Nat.le_of_succ_le_succ hl
      rw [stripGo_cons]
      by_cases hc : c = '<'
      · rw [if_pos hc]
        cases hfe : findTagEnd cs with
        | some rest =>
          show hasTag (stripGo n rest) = false
          exact ih rest (Nat.le_of_lt (Nat.lt_of_lt_of_le (findTagEnd_length hfe) hcs))
        | none =>
          show hasTag (c :: stripGo n cs) = false
          rw [hasTag_cons, if_pos hc, findTagEnd_stripGo n cs hfe, ih cs hcs]
          rfl
      · rw [if_neg hc]
        rw [hasTag_cons, if_neg hc]
        exact ih cs hcs

theorem stripHtmlCore_idem (l : List Char) :
    stripHtmlCore (stripHtmlCore l) = stripHtmlCore l :=
  stripGo_of_hasTag_eq_false _ _ (hasTag_stripGo _ _ le_rfl) le_rfl

theorem stripHtml_idem (s : String) : stripHtml (stripHtml s) = stripHtml s :=
  congrArg String.mk (stripHtmlCore_idem s.data)

theorem bindE_ok {α β : Type} {x : Except String α} {g : α → Except String β} {b : β} :
    (x >>= g) = Except.ok b ↔ ∃ a, x = Except.ok a ∧ g a = Except.ok b := by
  cases x <;> simp [Bind.bind, Except.bind]

theorem pureE_ok {α : Type} {a b : α} :
    (pure a : Except String α) = Except.ok b ↔ a = b := by
  constructor
  · intro h; cases h; rfl
  · intro h; cases h; rfl

/-- Whatever branch of the loop body runs, the `collection` metadata entry
holds `collLabel source_type`. -/
theorem normalizeItem_collection (st : Option String) (ni : String) (item : Json)
    (f : String) (md : List (String × Json))
    (h : normalizeItem st ni item = .ok (f, md)) :
    alookup md "collection" = some (.str (collLabel st)) := by
  unfold normalizeItem at h
  by_cases h1 : st = some "블로그"
  · rw [if_pos h1] at h
    simp only [bindE_ok, pureE_ok] at h
    obtain ⟨a1, -, a2, -, a3, -, a4, -, a5, -, a6, -, a7, -, a8, -, hmd⟩ := h
    cases hmd
    subst h1
    rfl
  · rw [if_neg h1] at h
    by_cases h2 : st = some "쇼핑"
    · rw [if_pos h2] at h
      simp only [bindE_ok, pureE_ok] at h
      obtain ⟨a1, -, a2, -, a3, -, a4, -, a5, -, a6, -, a7, -, a8, -, a9, -, a10, -, a11, -, a12, -, hmd⟩ := h
      cases hmd
      subst h2
      rfl
    · rw [if_neg h2] at h
      by_cases h3 : st = some "뉴스"
      · rw [if_pos h3] at h
        simp only [bindE_ok, pureE_ok] at h
        obtain ⟨a1, -, a2, -, a3, -, a4, -, a5, -, a6, -, a7, -, a8, -, hmd⟩ := h
        cases hmd
        subst h3
        rfl
      · rw [if_neg h3] at h
        simp only [bindE_ok] at h
        obtain ⟨a1, -, a2, -, a3, -, a4, -, a5, -, b, -, hrest⟩ := h
        cases b with
        | true =>
          rw [if_pos rfl] at hrest
          rw [bindE_ok] at hrest
          obtain ⟨lv, -, hmd⟩ := hrest
          rw [pureE_ok] at hmd
          cases hmd
          rfl
        | false =>
          rw [if_neg (by decide)] at hrest
          rw [pureE_ok] at hrest
          cases hrest
          rfl

/-- Every record the loop hands to the store comes from normalizing one of
the input items and embedding its full text. -/
theorem runLoop_store_mem (st : Option String)
    (embed : String → Except String (List Int))
    (insert : StoredRecord → Except String Unit) (ni : String) (r : StoredRecord) :
    ∀ items : List Json, r ∈ (runLoop items st embed insert ni).1 →
      ∃ item f md v, item ∈ items ∧ normalizeItem st ni item = .ok (f, md) ∧
        embed f = .ok v ∧ r = ⟨f, v, md⟩ := by
  intro items
  induction items with
  | nil => intro hr; simp [runLoop] at hr
  | cons item rest ih =>
    intro hr
    cases hn : normalizeItem st ni item with
    | error e => simp only [runLoop, hn] at hr; simp at hr
    | ok fm =>
      obtain ⟨full, md⟩ := fm
      cases he : embed full with
      | error e => simp only [runLoop, hn, he] at hr; simp at hr
      | ok v =>
        cases hi : insert ⟨full, v, md⟩ with
        | error e => simp only [runLoop, hn, he, hi] at hr; simp at hr
        | ok u =>
          rcases hrl : runLoop rest st embed insert ni with ⟨rs, n, err⟩
          simp only [runLoop, hn, he, hi, hrl] at hr
          rcases List.mem_cons.mp hr with heq | hmem
          · exact ⟨item, full, md, v, List.mem_cons_self _ _, hn, he, heq⟩
          · obtain ⟨it, f, m, w, hit, h1, h2, h3⟩ := ih (by rw [hrl]; exact hmem)
            exact ⟨it, f, m, w, List.mem_cons_of_mem _ hit, h1, h2, h3⟩

theorem runBatch_infos (itemsVal : Json) (st cn : Option String) (infos : List String)
    (embed : String → Except String (List Int))
    (insert : StoredRecord → Except String Unit) (ns ni : String) :
    (runBatch itemsVal st cn infos embed insert ns ni).infos = infos := by
  unfold runBatch
  cases pyIter itemsVal with
  | error e => rfl
  | ok items =>
    rcases hrl : runLoop items st embed insert ni with ⟨rs, n, err⟩
    cases err <;> simp [hrl]

theorem runBatch_result_ok (itemsVal : Json) (st cn : Option String)
    (infos : List String) (embed : String → Except String (List Int))
    (insert : StoredRecord → Except String Unit) (ns ni : String)
    (c : String) (n : Nat) (t : Option String)
    (h : (runBatch itemsVal st cn infos embed insert ns ni).result = .ok (c, n, t)) :
    t = st ∧ (pyFalsy cn = true → c = pyStr st ++ "_" ++ ns) := by
  unfold runBatch at h
  cases hit : pyIter itemsVal with
  | error e => rw [hit] at h; simp at h
  | ok items =>
    simp only [hit] at h
    rcases hrl : runLoop items st embed insert ni with ⟨rs, m, err⟩
    simp only [hrl] at h
    cases err with
    | some e => simp at h
    | none =>
      simp only [Except.ok.injEq, Prod.mk.injEq] at h
      obtain ⟨hc, hn, ht⟩ := h
      refine ⟨ht.symm, fun hcn => ?_⟩
      cases cn with
      | none => exact hc.symm
      | some c' =>
        have : c' = "" := by
          by_cases hc' : c' = ""
          · exact hc'
          · simp [pyFalsy, hc'] at hcn
        rw [← hc, this]
        rfl

theorem runBatch_store_mem (itemsVal : Json) (st cn : Option String)
    (infos : List String) (embed : String → Except String (List Int))
    (insert : StoredRecord → Except String Unit) (ns ni : String) (r : StoredRecord)
    (h : r ∈ (runBatch itemsVal st cn infos embed insert ns ni).store) :
    ∃ items, pyIter itemsVal = .ok items ∧ r ∈ (runLoop items st embed insert ni).1 := by
  unfold runBatch at h
  cases hit : pyIter itemsVal with
  | error e => rw [hit] at h; simp at h
  | ok items =>
    simp only [hit] at h
    refine ⟨items, rfl, ?_⟩
    rcases hrl : runLoop items st embed insert ni with ⟨rs, m, err⟩
    simp only [hrl] at h
    cases err <;> simpa [hrl] using h

/-- C1: the format detector returns unknown for a non-mapping, a mapping
without an "items" key, or an empty "items" list; otherwise it inspects
only the first element of "items" and classifies it in the fixed order
Blog (bloggername), then Shopping (productType/maker/mallName), then News
(pubDate and articleId-or-originallink), first match winning, defaulting
to unknown. -/
theorem C1_detect_classification :
    (∀ data : Json, data.isObj = false → detect_naver_api_type data = .ok "unknown") ∧
    (∀ kvs, alookup kvs "items" = none → detect_naver_api_type (.obj kvs) = .ok "unknown") ∧
    (∀ kvs, alookup kvs "items" = some (.arr []) → detect_naver_api_type (.obj kvs) = .ok "unknown") ∧
    (∀ kvs fields rest, alookup kvs "items" = some (.arr (.obj fields :: rest)) →
       detect_naver_api_type (.obj kvs) = .ok
         (if hasKey fields "bloggername" then "블로그"
          else if (hasKey fields "productType" || hasKey fields "maker" || hasKey fields "mallName") then "쇼핑"
          else if (hasKey fields "pubDate" && (hasKey fields "articleId" || hasKey fields "originallink")) then "뉴스"
          else "unknown")) := by
  refine ⟨?_, ?_, ?_, ?_⟩
  · intro data h
    cases data <;> first | rfl | simp [Json.isObj] at h
  · intro kvs h
    simp [detect_naver_api_type, h]
  · intro kvs h
    simp [detect_naver_api_type, h, pyTruthy]
  · intro kvs fields rest h
    cases hb : (alookup fields "bloggername").isSome <;>
    cases hp : (alookup fields "productType").isSome <;>
    cases hm : (alookup fields "maker").isSome <;>
    cases hml : (alookup fields "mallName").isSome <;>
    cases hpd : (alookup fields "pubDate").isSome <;>
    cases ha : (alookup fields "articleId").isSome <;>
    cases ho : (alookup fields "originallink").isSome <;>
    simp [detect_naver_api_type, h, pyTruthy, pyIndex0, pyIn, hasKey,
      hb, hp, hm, hml, hpd, ha, ho, Bind.bind, Except.bind, pure, Except.pure]

/-- C1 witness: a one-item batch whose first item has a bloggername field
is classified as Blog. -/
theorem C1_witness :
    detect_naver_api_type (.obj [("items", .arr [.obj [("bloggername", .str "x")]])]) = .ok "블로그" := by
  have h := C1_detect_classification.2.2.2 [("items", .arr [.obj [("bloggername", .str "x")]])]
    [("bloggername", .str "x")] [] rfl
  simpa using h

/-- C4: price parsing for Shopping items never raises: lprice "1000"
yields 1000, "abc" yields null, a missing lprice yields null; whenever the
Shopping branch completes, the price metadata entry exists and is an
integer or null; and every possible lprice value still yields a normalized
document, its price being the integer conversion or null on failure. -/
theorem C4_price_parsing :
    (∀ ni, ∃ f md, normalizeItem (some "쇼핑") ni (.obj [("lprice", .str "1000")]) = .ok (f, md) ∧
       alookup md "price" = some (.num 1000)) ∧
    (∀ ni, ∃ f md, normalizeItem (some "쇼핑") ni (.obj [("lprice", .str "abc")]) = .ok (f, md) ∧
       alookup md "price" = some .null) ∧
    (∀ ni, ∃ f md, normalizeItem (some "쇼핑") ni (.obj []) = .ok (f, md) ∧
       alookup md "price" = some .null) ∧
    (∀ ni item f md, normalizeItem (some "쇼핑") ni item = .ok (f, md) →
       ∃ p, alookup md "price" = some p ∧ (p = .null ∨ ∃ k : Int, p = .num k)) ∧
    (∀ ni (v : Json), ∃ f md, normalizeItem (some "쇼핑") ni (.obj [("lprice", v)]) = .ok (f, md) ∧
       alookup md "price" = some (priceJson (pyToInt v))) := by
  refine ⟨fun ni => ⟨_, _, rfl, rfl⟩, fun ni => ⟨_, _, rfl, rfl⟩, fun ni => ⟨_, _, rfl, rfl⟩, ?_, fun ni v => ⟨_, _, rfl, rfl⟩⟩
  intro ni item f md h
  unfold normalizeItem at h
  rw [if_neg (by decide), if_pos (by decide)] at h
  simp only [bindE_ok, pureE_ok] at h
  obtain ⟨a1, -, a2, -, a3, -, a4, -, a5, -, a6, -, a7, -, a8, -, a9, -, a10, -, a11, -, a12, -, hmd⟩ := h
  cases hmd
  refine ⟨priceJson (pyToInt a6), rfl, ?_⟩
  cases pyToInt a6 with
  | none => exact Or.inl rfl
  | some k => exact Or.inr ⟨k, rfl⟩

/-- C4 witness: the three concrete price cases at a fixed timestamp, and
the always-null-or-integer property applied to the "abc" item. -/
theorem C4_witness :
    ∃ p, alookup [("title", Json.str ""), ("collection", Json.str "쇼핑"),
      ("collected_at", Json.str "T"), ("url", Json.str ""), ("price", Json.null),
      ("maker", Json.str ""), ("brand", Json.str ""), ("mallName", Json.str ""),
      ("productId", Json.str ""), ("productType", Json.str "")] "price" = some p ∧
      (p = Json.null ∨ ∃ k : Int, p = Json.num k) :=
  C4_price_parsing.2.2.2.1 "T" (.obj [("lprice", .str "abc")]) " " _ rfl

/-- C5: HTML-tag stripping is idempotent (stripping an already stripped
string changes nothing), strip("<b>x</b>") = "x", strip("") = "",
strip(None) = ""; on any string it succeeds and returns a string. -/
theorem C5_strip_idempotent :
    (∀ s r : String, clean_html_tags (.str s) = .ok r → clean_html_tags (.str r) = .ok r) ∧
    clean_html_tags (.str "<b>x</b>") = .ok "x" ∧
    clean_html_tags (.str "") = .ok "" ∧
    clean_html_tags .null = .ok "" ∧
    (∀ s : String, ∃ r : String, clean_html_tags (.str s) = .ok r) := by
  refine ⟨?_, rfl, rfl, rfl, ?_⟩
  · intro s r h
    by_cases hs : s = ""
    · subst hs
      have hr : r = "" := by
        rw [show clean_html_tags (.str "") = .ok "" from rfl] at h
        cases h
        rfl
      subst hr
      rfl
    · have ht : pyTruthy (.str s) = true := by simp [pyTruthy, hs]
      unfold clean_html_tags at h
      rw [ht, if_pos rfl] at h
      have hr : r = stripHtml s := by cases h; rfl
      subst hr
      by_cases h0 : stripHtml s = ""
      · rw [h0]
        rfl
      · have ht2 : pyTruthy (.str (stripHtml s)) = true := by simp [pyTruthy, h0]
        unfold clean_html_tags
        rw [ht2, if_pos rfl]
        show Except.ok (stripHtml (stripHtml s)) = Except.ok (stripHtml s)
        rw [stripHtml_idem]
  · intro s
    by_cases hs : s = ""
    · exact ⟨"", by rw [hs]; rfl⟩
    · refine ⟨stripHtml s, ?_⟩
      have ht : pyTruthy (.str s) = true := by simp [pyTruthy, hs]
      unfold clean_html_tags
      rw [ht, if_pos rfl]

/-- C5 witness: stripping the already stripped "x" changes nothing. -/
theorem C5_witness : clean_html_tags (.str "x") = .ok "x" :=
  C5_strip_idempotent.1 "<b>x</b>" "x" rfl

/-- C10: the removal pattern does not match across a line break: the tag
in "<b\n>x" survives stripping, and it survives into the full text and the
title metadata of a processed Blog item. -/
theorem C10_newline_tag_survives :
    stripHtml "<b\n>x" = "<b\n>x" ∧
    clean_html_tags (.str "<b\n>x") = .ok "<b\n>x" ∧
    normalizeItem (some "블로그") "NOW" (.obj [("title", .str "<b\n>x")]) =
      .ok ("<b\n>x ",
        [("title", .str "<b\n>x"), ("collection", .str "블로그"),
         ("collected_at", .str "NOW"), ("url", .str ""), ("date", .str ""),
         ("bloggername", .str ""), ("bloggerlink", .str "")]) :=
  ⟨rfl, rfl, rfl⟩

/-- C7: the specification's example blog batch with no caller-supplied
type: detection reports Blog, the stored document's full text is "A d1",
and its metadata carries bloggername "bn". -/
theorem C7_example_blog_batch :
    process_json_file blogBatch none none embedOkC insertOkC "TS" "NOW" =
      ⟨[⟨"A d1", [0],
        [("title", .str "A"), ("collection", .str "블로그"),
         ("collected_at", .str "NOW"), ("url", .str ""), ("date", .str ""),
         ("bloggername", .str "bn"), ("bloggerlink", .str "")]⟩],
       [infoMsg "블로그"], .ok ("블로그_TS", 1, some "블로그")⟩ := rfl

/-- C3 is refuted in its reporting part: when the second of three items is
rejected by the store, exactly one record is persisted, but the only
message the button handler shows is the error line, which does not contain
the digit 1 — the caller is not informed of the success count. -/
theorem C3_counterexample :
    run_button batch3 none (some "블로그") embedOkC insertFailC "TS" "NOW" = ["오류 발생: boom"] ∧
    charsContain "1".data "오류 발생: boom".data = false ∧
    (process_json_file batch3 none (some "블로그") embedOkC insertFailC "TS" "NOW").store.length = 1 :=
  ⟨rfl, rfl, rfl⟩

/-- C3 (amended): when the store rejects the second of three items, the
loop aborts immediately — the store keeps exactly the first record, item 3
is never reached — and the caller sees the failure reason verbatim as the
single error message; the success count at the abort is not reported. -/
theorem C3_abort_on_store_failure :
    ∀ (i1 i2 i3 : Json) (st cn : Option String)
      (embed : String → Except String (List Int))
      (insert : StoredRecord → Except String Unit) (ns ni : String)
      (f1 : String) (md1 : List (String × Json)) (v1 : List Int)
      (f2 : String) (md2 : List (String × Json)) (v2 : List Int) (e : String),
      normalizeItem st ni i1 = .ok (f1, md1) → embed f1 = .ok v1 →
      insert ⟨f1, v1, md1⟩ = .ok () →
      normalizeItem st ni i2 = .ok (f2, md2) → embed f2 = .ok v2 →
      insert ⟨f2, v2, md2⟩ = .error e →
      (process_json_file (.arr [i1, i2, i3]) cn st embed insert ns ni).store = [⟨f1, v1, md1⟩] ∧
      (process_json_file (.arr [i1, i2, i3]) cn st embed insert ns ni).result = .error e ∧
      run_button (.arr [i1, i2, i3]) cn st embed insert ns ni = ["오류 발생: " ++ e] := by
  intro i1 i2 i3 st cn embed insert ns ni f1 md1 v1 f2 md2 v2 e hn1 he1 hi1 hn2 he2 hi2
  have hl : runLoop [i1, i2, i3] st embed insert ni = ([⟨f1, v1, md1⟩], 1, some e) := by
    simp [runLoop, hn1, he1, hi1, hn2, he2, hi2]
  have hp : process_json_file (.arr [i1, i2, i3]) cn st embed insert ns ni
      = ⟨[⟨f1, v1, md1⟩], [], .error e⟩ := by
    show runBatch (.arr [i1, i2, i3]) st cn [] embed insert ns ni = _
    unfold runBatch
    simp only [pyIter, hl]
  refine ⟨by rw [hp], by rw [hp], ?_⟩
  unfold run_button
  rw [hp]
  rfl

/-- C3 witness: the amended behaviour at the concrete three-item fixture. -/
theorem C3_abort_witness :
    (process_json_file (.arr [.obj [("title", .str "t1"), ("description", .str "d1")],
        .obj [("title", .str "t2"), ("description", .str "d2")],
        .obj [("title", .str "t3"), ("description", .str "d3")]])
        none (some "블로그") embedOkC insertFailC "TS" "NOW").store =
      [⟨"t1 d1", [0], [("title", .str "t1"), ("collection", .str "블로그"),
        ("collected_at", .str "NOW"), ("url", .str ""), ("date", .str ""),
        ("bloggername", .str ""), ("bloggerlink", .str "")]⟩] ∧
    (process_json_file (.arr [.obj [("title", .str "t1"), ("description", .str "d1")],
        .obj [("title", .str "t2"), ("description", .str "d2")],
        .obj [("title", .str "t3"), ("description", .str "d3")]])
        none (some "블로그") embedOkC insertFailC "TS" "NOW").result = .error "boom" ∧
    run_button (.arr [.obj [("title", .str "t1"), ("description", .str "d1")],
        .obj [("title", .str "t2"), ("description", .str "d2")],
        .obj [("title", .str "t3"), ("description", .str "d3")]])
        none (some "블로그") embedOkC insertFailC "TS" "NOW" = ["오류 발생: boom"] :=
  C3_abort_on_store_failure
    (.obj [("title", .str "t1"), ("description", .str "d1")])
    (.obj [("title", .str "t2"), ("description", .str "d2")])
    (.obj [("title", .str "t3"), ("description", .str "d3")])
    (some "블로그") none embedOkC insertFailC "TS" "NOW"
    "t1 d1" [("title", .str "t1"), ("collection", .str "블로그"),
      ("collected_at", .str "NOW"), ("url", .str ""), ("date", .str ""),
      ("bloggername", .str ""), ("bloggerlink", .str "")] [0]
    "t2 d2" [("title", .str "t2"), ("collection", .str "블로그"),
      ("collected_at", .str "NOW"), ("url", .str ""), ("date", .str ""),
      ("bloggername", .str ""), ("bloggerlink", .str "")] [0]
    "boom" rfl rfl rfl rfl rfl rfl

/-- C8 is refuted for bare-array input with no caller-supplied type: no
detection runs, the batch ends with no source type (the returned type is
`none`), and the generated label is the literal "None" plus timestamp —
not `t_timestamp` for any of the four type strings the program uses. -/
theorem C8_counterexample :
    (process_json_file (.arr [.obj []]) none none embedOkC insertOkC "20260101_000000" "NOW").result
      = .ok ("None_20260101_000000", 1, none) ∧
    (process_json_file (.arr [.obj []]) none none embedOkC insertOkC "20260101_000000" "NOW").infos = [] ∧
    (("None_20260101_000000" == "블로그" ++ "_" ++ "20260101_000000") = false) ∧
    (("None_20260101_000000" == "쇼핑" ++ "_" ++ "20260101_000000") = false) ∧
    (("None_20260101_000000" == "뉴스" ++ "_" ++ "20260101_000000") = false) ∧
    (("None_20260101_000000" == "unknown" ++ "_" ++ "20260101_000000") = false) :=
  ⟨rfl, rfl, rfl, rfl, rfl, rfl⟩

/-- C8 (amended): when the caller supplies no (or an empty) collection
label, the label is the Python string form of the batch's final source
type — the supplied or detected string, or the literal "None" when the
batch has none — followed by an underscore and the batch-start timestamp. -/
theorem C8_amended_label :
    ∀ (data : Json) (cn st : Option String)
      (embed : String → Except String (List Int))
      (insert : StoredRecord → Except String Unit) (ns ni : String),
      pyFalsy cn = true →
      ∀ c n t, (process_json_file data cn st embed insert ns ni).result = .ok (c, n, t) →
        c = pyStr t ++ "_" ++ ns := by
  intro data cn st embed insert ns ni hcn c n t h
  cases data with
  | obj kvs =>
    cases hlk : alookup kvs "items" with
    | some itemsVal =>
      simp only [process_json_file, hlk] at h
      by_cases hf : pyFalsy st = true
      · rw [if_pos hf] at h
        cases hd : detect_naver_api_type (.obj kvs) with
        | error e => rw [hd] at h; simp at h
        | ok d =>
          rw [hd] at h
          obtain ⟨ht, hc⟩ := runBatch_result_ok _ _ _ _ _ _ _ _ _ _ _ h
          subst ht
          exact hc hcn
      · rw [if_neg hf] at h
        obtain ⟨ht, hc⟩ := runBatch_result_ok _ _ _ _ _ _ _ _ _ _ _ h
        subst ht
        exact hc hcn
    | none =>
      simp only [process_json_file, hlk] at h
      obtain ⟨ht, hc⟩ := runBatch_result_ok _ _ _ _ _ _ _ _ _ _ _ h
      subst ht
      exact hc hcn
  | null =>
    obtain ⟨ht, hc⟩ := runBatch_result_ok _ _ _ _ _ _ _ _ _ _ _ h
    subst ht
    exact hc hcn
  | bool b =>
    obtain ⟨ht, hc⟩ := runBatch_result_ok _ _ _ _ _ _ _ _ _ _ _ h
    subst ht
    exact hc hcn
  | num n' =>
    obtain ⟨ht, hc⟩ := runBatch_result_ok _ _ _ _ _ _ _ _ _ _ _ h
    subst ht
    exact hc hcn
  | str s =>
    obtain ⟨ht, hc⟩ := runBatch_result_ok _ _ _ _ _ _ _ _ _ _ _ h
    subst ht
    exact hc hcn
  | arr xs =>
    obtain ⟨ht, hc⟩ := runBatch_result_ok _ _ _ _ _ _ _ _ _ _ _ h
    subst ht
    exact hc hcn

/-- C8 witness: the amended label shape at the bare-array fixture. -/
theorem C8_amended_witness :
    "None_20260101_000000" = pyStr none ++ "_" ++ "20260101_000000" :=
  C8_amended_label (.arr [.obj []]) none none embedOkC insertOkC
    "20260101_000000" "NOW" rfl "None_20260101_000000" 1 none rfl

/-- C2: a caller-supplied (non-empty — the code treats "" as absent, see
C9) source type disables detection for every input: no detection info is
ever emitted, the supplied type is returned for the batch, and every
persisted record's collection metadata equals the supplied type. -/
theorem C2_caller_type_overrides :
    ∀ (data : Json) (cn : Option String) (st : String), st ≠ "" →
    ∀ (embed : String → Except String (List Int))
      (insert : StoredRecord → Except String Unit) (ns ni : String),
      (process_json_file data cn (some st) embed insert ns ni).infos = [] ∧
      (∀ c n t, (process_json_file data cn (some st) embed insert ns ni).result = .ok (c, n, t) →
        t = some st) ∧
      (∀ r, r ∈ (process_json_file data cn (some st) embed insert ns ni).store →
        alookup r.metadata "collection" = some (.str st)) := by
  intro data cn st hst embed insert ns ni
  have hf : pyFalsy (some st) = false := by simp [pyFalsy, hst]
  have hcl : collLabel (some st) = st := by simp [collLabel, hst]
  obtain ⟨iv, hproc⟩ : ∃ iv, process_json_file data cn (some st) embed insert ns ni
      = runBatch iv (some st) cn [] embed insert ns ni := by
    cases data with
    | obj kvs =>
      cases hlk : alookup kvs "items" with
      | some itemsVal =>
        refine ⟨itemsVal, ?_⟩
        simp [process_json_file, hlk, hf]
      | none => exact ⟨.obj kvs, by simp only [process_json_file, hlk]⟩
    | null => exact ⟨.null, rfl⟩
    | bool b => exact ⟨.bool b, rfl⟩
    | num n => exact ⟨.num n, rfl⟩
    | str s => exact ⟨.str s, rfl⟩
    | arr xs => exact ⟨.arr xs, rfl⟩
  refine ⟨?_, ?_, ?_⟩
  · rw [hproc]
    exact runBatch_infos _ _ _ _ _ _ _ _
  · intro c n t h
    rw [hproc] at h
    exact (runBatch_result_ok _ _ _ _ _ _ _ _ _ _ _ h).1
  · intro r hr
    rw [hproc] at hr
    obtain ⟨items, -, hmem⟩ := runBatch_store_mem _ _ _ _ _ _ _ _ _ hr
    obtain ⟨item, f, md, v, -, hnorm, -, hrec⟩ := runLoop_store_mem _ _ _ _ _ _ hmem
    have hcol := normalizeItem_collection _ _ _ _ _ hnorm
    rw [hrec]
    rw [hcl] at hcol
    exact hcol

/-- C2 witness: supplying News for the blog fixture emits no detection
info. -/
theorem C2_witness :
    (process_json_file blogBatch none (some "뉴스") embedOkC insertOkC "TS" "NOW").infos = [] :=
  (C2_caller_type_overrides blogBatch none "뉴스" (by decide) embedOkC insertOkC "TS" "NOW").1

/-- C6: on a batch where every item normalizes and both collaborators
accept everything, the loop processes exactly one document per raw item
and in order: the store receives `items.length` records, the count equals
`items.length`, and the i-th record is built from the i-th raw item
(stated as a `Forall₂`, which forces equal lengths and positionwise
derivation). -/
theorem C6_normalization_one_to_one :
    ∀ (items : List Json) (st : Option String) (ni : String)
      (embed : String → Except String (List Int))
      (insert : StoredRecord → Except String Unit),
      (∀ item ∈ items, ∃ fm, normalizeItem st ni item = .ok fm) →
      (∀ s, ∃ v, embed s = .ok v) →
      (∀ r, insert r = .ok ()) →
      ∃ recs, runLoop items st embed insert ni = (recs, items.length, none) ∧
        recs.length = items.length ∧
        List.Forall₂ (fun item r => ∃ f md v,
          normalizeItem st ni item = .ok (f, md) ∧ embed f = .ok v ∧
          r = StoredRecord.mk f v md) items recs := by
  intro items st ni embed insert hnorm hembed hinsert
  induction items with
  | nil => exact ⟨[], rfl, rfl, List.Forall₂.nil⟩
  | cons item rest ih =>
    obtain ⟨⟨f, md⟩, hn⟩ := hnorm item (List.mem_cons_self _ _)
    obtain ⟨v, hv⟩ := hembed f
    obtain ⟨recs, hrl, hlen, hfa⟩ := ih fun it hit => hnorm it (List.mem_cons_of_mem _ hit)
    refine ⟨⟨f, v, md⟩ :: recs, ?_, by simp [hlen],
      List.Forall₂.cons ⟨f, md, v, hn, hv, rfl⟩ hfa⟩
    simp [runLoop, hn, hv, hinsert, hrl]

/-- C6 witness: a singleton batch at the trivial collaborators. -/
theorem C6_witness :
    ∃ recs, runLoop [Json.obj [("title", Json.str "a")]] none embedOkC insertOkC "NOW"
        = (recs, 1, none) ∧ recs.length = 1 ∧
      List.Forall₂ (fun item r => ∃ f md v,
        normalizeItem none "NOW" item = .ok (f, md) ∧ embedOkC f = .ok v ∧
        r = StoredRecord.mk f v md) [Json.obj [("title", Json.str "a")]] recs :=
  C6_normalization_one_to_one [Json.obj [("title", Json.str "a")]] none "NOW"
    embedOkC insertOkC
    (by intro item hit
        rw [List.mem_singleton] at hit
        subst hit
        exact ⟨("a ", [("title", Json.str "a"), ("collection", Json.str "general"),
          ("collected_at", Json.str "NOW")]), rfl⟩)
    (fun s => ⟨[0], rfl⟩) (fun r => rfl)

/-- C9: an empty-string caller type is treated exactly like an absent one:
on mapping-with-items input the observable behaviour of the empty-string
call coincides with the no-type call (so detection runs and its result
replaces the empty string), and the Generic branch's collection metadata
falls back to "general" for every falsy source type. -/
theorem C9_empty_type_like_absent :
    (∀ (kvs : List (String × Json)) (iv : Json) (cn : Option String)
       (embed : String → Except String (List Int))
       (insert : StoredRecord → Except String Unit) (ns ni : String),
       alookup kvs "items" = some iv →
       process_json_file (.obj kvs) cn (some "") embed insert ns ni
         = process_json_file (.obj kvs) cn none embed insert ns ni) ∧
    (∀ st, pyFalsy st = true → ∀ (ni : String) (item : Json) (f : String) md,
       normalizeItem st ni item = .ok (f, md) →
       alookup md "collection" = some (.str "general")) := by
  constructor
  · intro kvs iv cn embed insert ns ni hlk
    simp only [process_json_file, hlk]
    rfl
  · intro st hf ni item f md h
    have hcol := normalizeItem_collection st ni item f md h
    have hcl : collLabel st = "general" := by
      cases st with
      | none => rfl
      | some s =>
        by_cases hs : s = ""
        · rw [hs]; rfl
        · simp [pyFalsy, hs] at hf
    rw [hcl] at hcol
    exact hcol

/-- C9 witness: on the blog fixture, supplying the empty string behaves
exactly like supplying nothing. -/
theorem C9_witness :
    process_json_file blogBatch none (some "") embedOkC insertOkC "TS" "NOW"
      = process_json_file blogBatch none none embedOkC insertOkC "TS" "NOW" :=
  C9_empty_type_like_absent.1
    [("items", .arr [.obj [("title", .str "<b>A</b>"),
      ("description", .str "d1"), ("bloggername", .str "bn")]])]
    (.arr [.obj [("title", .str "<b>A</b>"),
      ("description", .str "d1"), ("bloggername", .str "bn")]])
    none embedOkC insertOkC "TS" "NOW" rfl
